import Mathlib

/-!
# Verification of the Conscience intent-inference engine

Shallow embedding of the core behavioral-telemetry code:
`IntentTracker` (behavior sampling, intent scoring, threat/reaction
timing, path heatmap), the `EnemySystem` state machines, the
`PowerUpSystem` benefit/cost scheduler, and the `DeathScreen` judgment
generator.

Numbers are modelled as exact rationals.  JavaScript `Math.sqrt` is
irrational-valued, so every definition that needs it takes an arbitrary
square-root function `sq : ℚ → ℚ` as a parameter; all theorems hold for
every such function (none of the verified properties depends on the
numeric value of a square root).  `Date.now() / 1000` is modelled as an
explicit `now` parameter, and `Math.random()` as an explicit roll
parameter.
-/

set_option maxHeartbeats 1000000

/-- 3D vector, as in THREE.Vector3 (components only; methods modelled
below). -/
structure Vec3 where
  x : ℚ
  y : ℚ
  z : ℚ
deriving DecidableEq, Repr

namespace Vec3

/-- Squared length `x*x + y*y + z*z`. -/
def lengthSq (v : Vec3) : ℚ := v.x * v.x + v.y * v.y + v.z * v.z

/-- `THREE.Vector3.length()`, via the square-root parameter. -/
def length (sq : ℚ → ℚ) (v : Vec3) : ℚ := sq v.lengthSq

/-- `THREE.Vector3.normalize()`: divides by `length() || 1` (so the zero
vector stays zero). -/
def normalize (sq : ℚ → ℚ) (v : Vec3) : Vec3 :=
  let l := v.length sq
  let d := if l = 0 then 1 else l
  ⟨v.x / d, v.y / d, v.z / d⟩

/-- Squared distance between two points. -/
def distSq (a b : Vec3) : ℚ :=
  (a.x - b.x) * (a.x - b.x) + (a.y - b.y) * (a.y - b.y) +
    (a.z - b.z) * (a.z - b.z)

/-- `THREE.Vector3.distanceTo`, via the square-root parameter. -/
def distanceTo (sq : ℚ → ℚ) (a b : Vec3) : ℚ := sq (distSq a b)

/-- `THREE.Vector3.dot`. -/
def dot (a b : Vec3) : ℚ := a.x * b.x + a.y * b.y + a.z * b.z

end Vec3

/-- One Behavior Sample, as built in `IntentTracker.recordFrame`. -/
structure Frame where
  timestamp : ℚ
  position : Vec3
  velocity : Vec3
  direction : Vec3
  speed : ℚ
  isMoving : Bool
  nearestEnemyDistance : ℚ
  enemiesInRange : ℕ
  action : Option String
  delta : ℚ
deriving DecidableEq, Repr

/-- A stored Threat Event. -/
structure Threat where
  timestamp : ℚ
  position : Vec3
  threatType : String
  reacted : Bool
  reactionTime : Option ℚ
  reactionType : Option String
deriving DecidableEq, Repr

/-- The five-channel Intent Score Vector. -/
structure Scores where
  aggression : ℚ
  evasion : ℚ
  greed : ℚ
  panic : ℚ
  precision : ℚ
deriving DecidableEq, Repr

/-- Player kinematic input consumed by `recordFrame` each tick. -/
structure PlayerData where
  position : Vec3
  velocity : Vec3
  lastAction : Option String
deriving DecidableEq, Repr

/-- Mutable state of an `IntentTracker` instance. The path heatmap is a
JS `Map` keyed by `"gridX,gridZ"`; keys are in bijection with the pair
`(gridX, gridZ)`, so the model keys by the integer pair, keeping JS
insertion-order update semantics (updating an existing key keeps its
position). -/
structure IntentTracker where
  frameData : List Frame
  intentScores : Scores
  pathHeatmap : List ((Int × Int) × ℕ)
  threats : List Threat
  reactionTimes : List ℚ
  totalMovingTime : ℚ
  totalStationaryTime : ℚ
  lastPosition : Option Vec3
deriving DecidableEq, Repr

namespace IntentTracker

/-- Constructor state: neutral 0.5 scores, empty histories. -/
def init : IntentTracker where
  frameData := []
  intentScores := ⟨1/2, 1/2, 1/2, 1/2, 1/2⟩
  pathHeatmap := []
  threats := []
  reactionTimes := []
  totalMovingTime := 0
  totalStationaryTime := 0
  lastPosition := none

/-- The three rolling window durations (seconds). -/
def windowShort : ℚ := 5
def windowMedium : ℚ := 15
def windowLong : ℚ := 30

/-- Movement below this speed counts as stationary. -/
def stationaryThreshold : ℚ := 1/10

/-- `Math.max(0, Math.min(1, x))`, the clamp applied to every channel. -/
def clamp01 (x : ℚ) : ℚ := max 0 (min 1 x)

/-- `Map.get(key) || 0` on the heatmap. -/
def heatGet (hm : List ((Int × Int) × ℕ)) (k : Int × Int) : ℕ :=
  match hm.lookup k with
  | some c => c
  | none => 0

/-- `Map.set(key, v)`: update in place if present (JS Maps keep the
original insertion position), else append. -/
def heatSet (hm : List ((Int × Int) × ℕ)) (k : Int × Int) (v : ℕ) :
    List ((Int × Int) × ℕ) :=
  match hm with
  | [] => [(k, v)]
  | (k0, v0) :: rest =>
      if k0 = k then (k0, v) :: rest else (k0, v0) :: heatSet rest k v

/-- The grid cell of a position: `(floor(x/5), floor(z/5))` with grid
size 5. -/
def gridKey (p : Vec3) : Int × Int := (⌊p.x / 5⌋, ⌊p.z / 5⌋)

/-- `updatePathHeatmap(position)`: increment the visit count of the
position's cell. -/
def updatePathHeatmap (p : Vec3) (hm : List ((Int × Int) × ℕ)) :
    List ((Int × Int) × ℕ) :=
  heatSet hm (gridKey p) (heatGet hm (gridKey p) + 1)

/-- `Math.max(...values, 1)` over the heatmap counts. -/
def heatMaxCount (hm : List ((Int × Int) × ℕ)) : ℕ :=
  (hm.map Prod.snd).foldr max 1

/-- `getPathRepetition(position)`: the cell's count divided by the
maximum count over all cells (with 1 as the floor of the maximum). -/
def getPathRepetition (s : IntentTracker) (p : Vec3) : ℚ :=
  (heatGet s.pathHeatmap (gridKey p) : ℚ) / (heatMaxCount s.pathHeatmap : ℚ)

/-- `calculateNearestEnemyDistance(playerPos, enemies)`: 999 when no
enemies, else the running minimum of distances against 999. -/
def calculateNearestEnemyDistance (sq : ℚ → ℚ) (playerPos : Vec3)
    (enemies : List Vec3) : ℚ :=
  if enemies = [] then 999
  else enemies.foldl
    (fun m e => let d := playerPos.distanceTo sq e; if d < m then d else m) 999

/-- `countEnemiesInRange(playerPos, enemies, range)`. -/
def countEnemiesInRange (sq : ℚ → ℚ) (playerPos : Vec3)
    (enemies : List Vec3) (range : ℚ) : ℕ :=
  (enemies.filter (fun e => playerPos.distanceTo sq e < range)).length

/-- `getFramesInWindow(windowSeconds)`: empty when no samples, else the
samples newer than (latest timestamp − window). -/
def getFramesInWindow (s : IntentTracker) (w : ℚ) : List Frame :=
  match s.frameData.getLast? with
  | none => []
  | some last => s.frameData.filter (fun f => decide (f.timestamp > last.timestamp - w))

/-- `cleanOldFrameData(currentTime)`: drop samples at or older than
(now − 30). -/
def cleanOldFrameData (now : ℚ) (fd : List Frame) : List Frame :=
  fd.filter (fun f => decide (f.timestamp > now - windowLong))

/-- Count, in `calculateAggression` factor 1, of samples within 20 units
whose successor sample is strictly nearer to the nearest enemy.  JS finds
the successor by the sample's own index (object identity), modelled with
`List.enum`. -/
def movingTowardCount (l : List Frame) : ℕ :=
  (l.enum.filter (fun (p : ℕ × Frame) =>
    if p.2.nearestEnemyDistance > 20 then false
    else match l.get? (p.1 + 1) with
      | none => false
      | some nf => decide (nf.nearestEnemyDistance < p.2.nearestEnemyDistance))).length

/-- Count, in `calculateEvasion` factor 1, of samples within 20 units
whose successor sample is strictly farther from the nearest enemy. -/
def movingAwayCount (l : List Frame) : ℕ :=
  (l.enum.filter (fun (p : ℕ × Frame) =>
    if p.2.nearestEnemyDistance > 20 then false
    else match l.get? (p.1 + 1) with
      | none => false
      | some nf => decide (nf.nearestEnemyDistance > p.2.nearestEnemyDistance))).length

/-- `calculateAggression(shortFrames, mediumFrames)`. -/
def calculateAggression (shortFrames mediumFrames : List Frame) : ℚ :=
  if shortFrames.length = 0 then 1/2
  else
    let f1 := ((movingTowardCount shortFrames : ℚ) / (shortFrames.length : ℚ)) * (4/10)
    let closeToEnemies := (shortFrames.filter (fun f => decide (f.nearestEnemyDistance < 5))).length
    let f2 := ((closeToEnemies : ℚ) / (shortFrames.length : ℚ)) * (3/10)
    let attackCount := (mediumFrames.filter (fun f => f.action = some "attack")).length
    let f3 := min ((attackCount : ℚ) / 10) 1 * (3/10)
    clamp01 (f1 + f2 + f3)

/-- `calculateEvasion(shortFrames, mediumFrames)`. -/
def calculateEvasion (shortFrames mediumFrames : List Frame) : ℚ :=
  if shortFrames.length = 0 then 1/2
  else
    let f1 := ((movingAwayCount shortFrames : ℚ) / (shortFrames.length : ℚ)) * (4/10)
    let safeDistance := (shortFrames.filter
      (fun f => decide (f.nearestEnemyDistance > 10) && decide (f.nearestEnemyDistance < 20))).length
    let f2 := ((safeDistance : ℚ) / (shortFrames.length : ℚ)) * (3/10)
    let defensiveActions := (mediumFrames.filter
      (fun f => f.action = some "defend" || f.action = some "dash")).length
    let f3 := min ((defensiveActions : ℚ) / 8) 1 * (3/10)
    clamp01 (f1 + f2 + f3)

/-- `calculateGreed(mediumFrames)`. -/
def calculateGreed (mediumFrames : List Frame) : ℚ :=
  if mediumFrames.length = 0 then 1/2
  else
    let riskyPickups := (mediumFrames.filter
      (fun f => f.action = some "pickup" && decide (f.enemiesInRange > 0))).length
    let f1 := min ((riskyPickups : ℚ) / 3) 1 * (1/2)
    let dangerousTime := (mediumFrames.filter
      (fun f => decide (f.enemiesInRange > 2) && f.isMoving)).length
    let f2 := ((dangerousTime : ℚ) / (mediumFrames.length : ℚ)) * (1/2)
    clamp01 (f1 + f2)

/-- The erratic-direction-change count of `calculatePanic` factor 1:
consecutive sample pairs with both directions nonzero-length and dot
product below 0.5. -/
def directionChangeCount (sq : ℚ → ℚ) (l : List Frame) : ℕ :=
  (l.enum.filter (fun (p : ℕ × Frame) =>
    match p.1, l.get? (p.1 - 1) with
    | 0, _ => false
    | _ + 1, none => false
    | _ + 1, some prev =>
        decide (prev.direction.length sq > 0) &&
        decide (p.2.direction.length sq > 0) &&
        decide (prev.direction.dot p.2.direction < 1/2))).length

/-- Arithmetic mean of the reaction-time samples (caller guards
nonempty). -/
def avgOf (l : List ℚ) : ℚ := l.sum / (l.length : ℚ)

/-- `calculatePanic(shortFrames, mediumFrames)` (the medium window is
unused by the source body; reaction times come from tracker state). -/
def calculatePanic (sq : ℚ → ℚ) (reactionTimes : List ℚ)
    (shortFrames : List Frame) : ℚ :=
  if shortFrames.length = 0 then 1/2
  else
    let f1 := min ((directionChangeCount sq shortFrames : ℚ) /
      ((shortFrames.length : ℚ) * (3/10))) 1 * (4/10)
    let f2 :=
      if reactionTimes.length > 0 then
        let avgReaction := avgOf reactionTimes
        if avgReaction > 1/2 then min ((avgReaction - 1/2) * 2) 1 * (3/10) else 0
      else 0
    let veryClose := (shortFrames.filter
      (fun f => decide (f.nearestEnemyDistance < 3) && decide (f.enemiesInRange > 1))).length
    let f3 := ((veryClose : ℚ) / (shortFrames.length : ℚ)) * (3/10)
    clamp01 (f1 + f2 + f3)

/-- `calculatePrecision(mediumFrames, longFrames)` (the long window is
unused by the source body). -/
def calculatePrecision (sq : ℚ → ℚ) (s : IntentTracker)
    (mediumFrames : List Frame) : ℚ :=
  if mediumFrames.length = 0 then 1/2
  else
    let speeds := mediumFrames.map Frame.speed
    let avgSpeed := speeds.sum / (speeds.length : ℚ)
    let varianceSum := (speeds.map (fun sp => (sp - avgSpeed) * (sp - avgSpeed))).sum
    let speedVariance := sq (varianceSum / (speeds.length : ℚ))
    let f1 := max 0 (1 - speedVariance / 5) * (4/10)
    let f2 :=
      if s.reactionTimes.length > 0 then
        max 0 (1 - avgOf s.reactionTimes * 2) * (3/10)
      else 15/100
    let f3 :=
      match mediumFrames.getLast? with
      | some lastF => (1 - getPathRepetition s lastF.position) * (3/10)
      | none => 0
    clamp01 (f1 + f2 + f3)

/-- `updateIntentScores()`: no-op below 10 long-window samples, else
recompute all five channels. -/
def updateIntentScores (sq : ℚ → ℚ) (s : IntentTracker) : IntentTracker :=
  let shortFrames := s.getFramesInWindow windowShort
  let mediumFrames := s.getFramesInWindow windowMedium
  let longFrames := s.getFramesInWindow windowLong
  if longFrames.length < 10 then s
  else
    { s with intentScores :=
      { aggression := calculateAggression shortFrames mediumFrames
        evasion := calculateEvasion shortFrames mediumFrames
        greed := calculateGreed mediumFrames
        panic := calculatePanic sq s.reactionTimes shortFrames
        precision := calculatePrecision sq s mediumFrames } }

/-- The Behavior Sample literal built at the top of `recordFrame`. -/
def mkFrame (sq : ℚ → ℚ) (now : ℚ) (playerData : PlayerData)
    (enemies : List Vec3) (delta : ℚ) : Frame :=
  let speed := playerData.velocity.length sq
  { timestamp := now
    position := playerData.position
    velocity := playerData.velocity
    direction := playerData.velocity.normalize sq
    speed := speed
    isMoving := decide (speed > stationaryThreshold)
    nearestEnemyDistance := calculateNearestEnemyDistance sq playerData.position enemies
    enemiesInRange := countEnemiesInRange sq playerData.position enemies 10
    action := playerData.lastAction
    delta := delta }

/-- The state mutations of `recordFrame` before `updateIntentScores`:
moving/stationary accumulators, heatmap update, push, prune. -/
def recordFrameCore (frame : Frame) (now delta : ℚ) (s : IntentTracker) :
    IntentTracker :=
  let s1 :=
    if frame.isMoving then { s with totalMovingTime := s.totalMovingTime + delta }
    else { s with totalStationaryTime := s.totalStationaryTime + delta }
  let s2 := { s1 with pathHeatmap := updatePathHeatmap frame.position s1.pathHeatmap }
  { s2 with frameData := cleanOldFrameData now (s2.frameData ++ [frame]) }

/-- `recordFrame(playerData, enemiesData, delta)` at simulated time
`now`: build the sample, update moving/stationary accumulators and the
heatmap, append, prune to the long window, recompute scores, record the
last position. -/
def recordFrame (sq : ℚ → ℚ) (now : ℚ) (playerData : PlayerData)
    (enemies : List Vec3) (delta : ℚ) (s : IntentTracker) : IntentTracker :=
  let frame := mkFrame sq now playerData enemies delta
  let s3 := recordFrameCore frame now delta s
  let s4 := updateIntentScores sq s3
  { s4 with lastPosition := some frame.position }

/-- `registerThreat(threatPosition, threatType)` at simulated time
`now`. -/
def registerThreat (now : ℚ) (pos : Vec3) (ty : String)
    (s : IntentTracker) : IntentTracker :=
  { s with threats := s.threats ++
      [{ timestamp := now, position := pos, threatType := ty,
         reacted := false, reactionTime := none, reactionType := none }] }

/-- The marking applied to the matched threat inside `registerReaction`. -/
def markThreat (now : ℚ) (rt : String) (t : Threat) : Threat :=
  { t with
    reacted := true
    reactionTime := some (now - t.timestamp)
    reactionType := some rt }

/-- The downward scan of `registerReaction`: threats are stored oldest
first, so the source's index loop from the end is modelled by trying the
tail (the more recent threats) first.  Returns the updated list and the
matched reaction time, or `none` when no unreacted threat is younger
than 2 seconds. -/
def markMostRecent (now : ℚ) (rt : String) :
    List Threat → Option (List Threat × ℚ)
  | [] => none
  | t :: ts =>
      match markMostRecent now rt ts with
      | some (ts2, r) => some (t :: ts2, r)
      | none =>
          if !t.reacted ∧ now - t.timestamp < 2 then
            some (markThreat now rt t :: ts, now - t.timestamp)
          else none

/-- Push onto the reaction-time buffer, evicting the oldest when the
length passes 20 (source: push then `shift()` while `length > 20`). -/
def pushReactionTime (l : List ℚ) (r : ℚ) : List ℚ :=
  let l2 := l ++ [r]
  if l2.length > 20 then l2.tail else l2

/-- `registerReaction(reactionType)` at simulated time `now`: mark the
most recent unreacted threat younger than 2 s (if any), record its
reaction time, then purge threats 5 s old or older. -/
def registerReaction (now : ℚ) (rt : String) (s : IntentTracker) :
    IntentTracker :=
  let (threats2, times2) :=
    match markMostRecent now rt s.threats with
    | some (ts2, r) => (ts2, pushReactionTime s.reactionTimes r)
    | none => (s.threats, s.reactionTimes)
  { s with
    threats := threats2.filter (fun t => decide (now - t.timestamp < 5))
    reactionTimes := times2 }

/-- `getAverageReactionTime()`. -/
def getAverageReactionTime (s : IntentTracker) : ℚ :=
  if s.reactionTimes.length = 0 then 0 else avgOf s.reactionTimes

/-- Fold `recordFrame` over a finite input sequence, starting from the
constructor state.  Each input is (now, playerData, enemyPositions,
delta). -/
def runRecordFrames (sq : ℚ → ℚ)
    (inputs : List (ℚ × PlayerData × List Vec3 × ℚ)) : IntentTracker :=
  inputs.foldl (fun s i => recordFrame sq i.1 i.2.1 i.2.2.1 i.2.2.2 s) init

/-- Fold `updatePathHeatmap` over a finite list of visited positions,
starting from the empty heatmap (every reachable heatmap state arises
this way). -/
def foldHeatmap (ps : List Vec3) : List ((Int × Int) × ℕ) :=
  ps.foldl (fun hm p => updatePathHeatmap p hm) []

end IntentTracker

/-! ## Power-Up System (`PowerUpSystem`, src/unnamed/part_003) -/

/-- The three power-up types. -/
inductive PowerUpType
  | TIME_SLOW
  | DAMAGE_BOOST
  | SPEED_SURGE
deriving DecidableEq, Repr

/-- The `immediateEffect` record of a power-up definition; JS omits the
fields that do not apply, modelled with `Option`. -/
structure ImmediateEffect where
  enemySpeedMultiplier : Option ℚ
  damageMultiplier : Option ℚ
  speedMultiplier : Option ℚ
deriving DecidableEq, Repr

/-- The `psychologicalCost` record of a power-up definition. -/
structure PsychologicalCost where
  enemyPredictionBonus : Option ℚ
  reactionWindowReduction : Option ℚ
  enemyResistanceToPattern : Option ℚ
  worldAwarenessIncrease : Option ℚ
  hazardResponseSpeed : Option ℚ
  durationAfterExpiry : ℚ
deriving DecidableEq, Repr

/-- Gameplay content of a `powerUpTypes` entry (name, uiText and color
are presentation-only and omitted). -/
structure PowerUpDef where
  duration : ℚ
  immediateEffect : ImmediateEffect
  psychologicalCost : PsychologicalCost
deriving DecidableEq, Repr

/-- The `powerUpTypes` table. -/
def powerUpTypes : PowerUpType → PowerUpDef
  | .TIME_SLOW =>
      { duration := 8
        immediateEffect := ⟨some (6/10), none, none⟩
        psychologicalCost := ⟨some (25/100), some (3/10), none, none, none, 15⟩ }
  | .DAMAGE_BOOST =>
      { duration := 5
        immediateEffect := ⟨none, some (15/10), none⟩
        psychologicalCost := ⟨none, none, some (4/10), none, none, 10⟩ }
  | .SPEED_SURGE =>
      { duration := 6
        immediateEffect := ⟨none, none, some (16/10)⟩
        psychologicalCost := ⟨none, none, none, some (35/100), some (15/10), 12⟩ }

/-- A Power-Up Activation record. -/
structure Activation where
  powerUpType : PowerUpType
  activationTime : ℚ
  expiryTime : ℚ
  costStartTime : Option ℚ
  costEndTime : Option ℚ
  active : Bool
deriving DecidableEq, Repr

/-- `PowerUpSystem` state: the `activePowerUps` list.  The write-only
`powerUpHistory` list (never read by the verified code) is omitted. -/
structure PowerUpSystem where
  activePowerUps : List Activation
deriving DecidableEq, Repr

namespace PowerUpSystem

/-- Empty system, as constructed. -/
def init : PowerUpSystem := ⟨[]⟩

/-- `activatePowerUp(type)` at simulated time `now` (notification
callback is presentation-only and omitted). -/
def activatePowerUp (now : ℚ) (t : PowerUpType) (s : PowerUpSystem) :
    PowerUpSystem :=
  ⟨s.activePowerUps ++
    [{ powerUpType := t
       activationTime := now
       expiryTime := now + (powerUpTypes t).duration
       costStartTime := none
       costEndTime := none
       active := true }]⟩

/-- The per-activation expiry step inside `update`: an active power-up
whose expiry time has been reached becomes inactive and gets its cost
window `[now, now + durationAfterExpiry)`. -/
def updateActivation (now : ℚ) (p : Activation) : Activation :=
  if now ≥ p.expiryTime ∧ p.active then
    { p with
      active := false
      costStartTime := some now
      costEndTime := some (now + (powerUpTypes p.powerUpType).psychologicalCost.durationAfterExpiry) }
  else p

/-- The removal test inside `update`:
`powerUp.costStartTime && now >= powerUp.costEndTime` with JS number
truthiness (a zero or absent cost start is falsy; a `null` cost end
coerces to 0). -/
def costElapsed (now : ℚ) (p : Activation) : Bool :=
  match p.costStartTime with
  | none => false
  | some cs =>
      if cs = 0 then false
      else
        match p.costEndTime with
        | some ce => decide (now ≥ ce)
        | none => decide (now ≥ 0)

/-- `update(delta, enemies)` at simulated time `now`: expire finished
benefits into their cost window, then splice out activations whose cost
window has elapsed (delta and enemies are unused by the source body). -/
def update (now : ℚ) (s : PowerUpSystem) : PowerUpSystem :=
  ⟨((s.activePowerUps.map (updateActivation now)).filter
      (fun p => !costElapsed now p))⟩

/-- The aggregated effects record returned by `getActiveEffects`. -/
structure Effects where
  enemySpeedMultiplier : ℚ
  damageMultiplier : ℚ
  speedMultiplier : ℚ
  enemyPredictionBonus : ℚ
  reactionWindowReduction : ℚ
  enemyResistanceToPattern : ℚ
  worldAwarenessIncrease : ℚ
  hazardResponseSpeed : ℚ
deriving DecidableEq, Repr

/-- The neutral effects literal at the top of `getActiveEffects`. -/
def neutralEffects : Effects := ⟨1, 1, 1, 0, 0, 0, 0, 1⟩

/-- JS truthiness of an optional numeric field: present and nonzero. -/
def truthy (o : Option ℚ) : Bool :=
  match o with
  | none => false
  | some v => decide (v ≠ 0)

/-- The per-activation pass of `getActiveEffects`: active benefits
multiply in, activations inside their cost window add/multiply their
psychological costs. -/
def applyActivation (now : ℚ) (eff : Effects) (p : Activation) : Effects :=
  if p.active then
    let im := (powerUpTypes p.powerUpType).immediateEffect
    let e1 := if truthy im.enemySpeedMultiplier then
        { eff with enemySpeedMultiplier :=
            eff.enemySpeedMultiplier * im.enemySpeedMultiplier.getD 0 }
      else eff
    let e2 := if truthy im.damageMultiplier then
        { e1 with damageMultiplier := e1.damageMultiplier * im.damageMultiplier.getD 0 }
      else e1
    if truthy im.speedMultiplier then
      { e2 with speedMultiplier := e2.speedMultiplier * im.speedMultiplier.getD 0 }
    else e2
  else
    if truthy p.costStartTime ∧ truthy p.costEndTime ∧
        decide (now < p.costEndTime.getD 0) then
      let cost := (powerUpTypes p.powerUpType).psychologicalCost
      let e1 := if truthy cost.enemyPredictionBonus then
          { eff with enemyPredictionBonus :=
              eff.enemyPredictionBonus + cost.enemyPredictionBonus.getD 0 }
        else eff
      let e2 := if truthy cost.reactionWindowReduction then
          { e1 with reactionWindowReduction :=
              e1.reactionWindowReduction + cost.reactionWindowReduction.getD 0 }
        else e1
      let e3 := if truthy cost.enemyResistanceToPattern then
          { e2 with enemyResistanceToPattern :=
              e2.enemyResistanceToPattern + cost.enemyResistanceToPattern.getD 0 }
        else e2
      let e4 := if truthy cost.worldAwarenessIncrease then
          { e3 with worldAwarenessIncrease :=
              e3.worldAwarenessIncrease + cost.worldAwarenessIncrease.getD 0 }
        else e3
      if truthy cost.hazardResponseSpeed then
        { e4 with hazardResponseSpeed :=
            e4.hazardResponseSpeed * cost.hazardResponseSpeed.getD 0 }
      else e4
    else eff

/-- `getActiveEffects()` at simulated time `now`. -/
def getActiveEffects (now : ℚ) (s : PowerUpSystem) : Effects :=
  s.activePowerUps.foldl (applyActivation now) neutralEffects

end PowerUpSystem

/-! ## Enemy System (`EnemySystem`, src/public/vertical-map-generator.js) -/

/-- The three enemy types. -/
inductive EnemyType
  | OBSERVER
  | PUNISHER
  | DISTORTER
deriving DecidableEq, Repr

/-- Gameplay content of an `enemyTypes` entry (name, color, description
are presentation-only and omitted).  The record is mutable in the
source: `handlePunisherBehavior` writes its `speed` field, and the
record is shared by reference between the system and every enemy of
that type it created. -/
structure EnemyDef where
  size : ℚ
  health : ℚ
  speed : ℚ
  attackFrequency : ℚ
  attackDamage : ℚ
  attackWindup : ℚ
  attackDuration : ℚ
  attackRange : ℚ
  detectionRange : ℚ
  patternMemory : Option ℕ
  predictionContribution : Option ℚ
  environmentalEffect : Bool
deriving DecidableEq, Repr

/-- Initial `enemyTypes` table, as written in the constructor. -/
def enemyTypesInit : EnemyType → EnemyDef
  | .OBSERVER =>
      { size := 1/2, health := 60, speed := 2, attackFrequency := 1/10
        attackDamage := 5, attackWindup := 15/10, attackDuration := 3/10
        attackRange := 4, detectionRange := 30, patternMemory := none
        predictionContribution := some (15/100), environmentalEffect := false }
  | .PUNISHER =>
      { size := 7/10, health := 120, speed := 3, attackFrequency := 4/10
        attackDamage := 12, attackWindup := 8/10, attackDuration := 1/2
        attackRange := 3, detectionRange := 25, patternMemory := some 5
        predictionContribution := none, environmentalEffect := false }
  | .DISTORTER =>
      { size := 6/10, health := 80, speed := 25/10, attackFrequency := 3/10
        attackDamage := 0, attackWindup := 1, attackDuration := 4/10
        attackRange := 8, detectionRange := 28, patternMemory := none
        predictionContribution := none, environmentalEffect := true }

/-- One `EnemySystem` instance: its (mutable, per-instance) `enemyTypes`
table.  Each enemy's `userData.definition` is a reference to the entry
for its type in this table, so definition reads/writes are modelled as
reads/writes of `enemyTypes` at the enemy's type key. -/
structure EnemySystem where
  enemyTypes : EnemyType → EnemyDef

/-- Freshly constructed system. -/
def EnemySystem.init : EnemySystem := ⟨enemyTypesInit⟩

/-- Behavior states. -/
inductive BehaviorState
  | patrol
  | chase
  | engage
deriving DecidableEq, Repr

/-- Attack sub-states. -/
inductive AttackState
  | idle
  | windup
  | attacking
  | cooldown
deriving DecidableEq, Repr

/-- The intended attack cycle `idle → windup → attacking → cooldown →
idle`. -/
def AttackState.cycleNext : AttackState → AttackState
  | .idle => .windup
  | .windup => .attacking
  | .attacking => .cooldown
  | .cooldown => .idle

/-- The behavioral fields of `enemy.userData` set up by `createEnemy`
(mesh, geometry, patrol target and position live in the rendering/
physics collaborators; position enters the verified functions only
through the player-enemy distance, passed explicitly). -/
structure EnemyUserData where
  enemyType : EnemyType
  health : ℚ
  state : BehaviorState
  attackState : AttackState
  attackWindupStartTime : ℚ
  attackStartTime : ℚ
  lastAttackTime : ℚ
  attackCooldown : ℚ
  observedActions : List String
  lastObservationTime : ℚ
  baseSpeed : ℚ
  patternDetected : Bool
  pendingPlayerDamage : Option ℚ
deriving DecidableEq, Repr

/-- `createEnemy`: the fresh `userData` for a spawned enemy (its
`definition` field is a reference to `enemyTypes[type]`, so `baseSpeed`
snapshots the current `speed` of the shared record). -/
def createEnemyUserData (sys : EnemySystem) (ty : EnemyType) : EnemyUserData :=
  let enemyDef := sys.enemyTypes ty
  { enemyType := ty
    health := enemyDef.health
    state := .patrol
    attackState := .idle
    attackWindupStartTime := 0
    attackStartTime := 0
    lastAttackTime := 0
    attackCooldown := 2
    observedActions := []
    lastObservationTime := 0
    baseSpeed := enemyDef.speed
    patternDetected := false
    pendingPlayerDamage := none }

/-- The behavior-state assignment at the top of `updateEnemy`: within
detection range the state becomes `engage` when also within attack range
with an `idle` attack sub-state, else `chase`; outside detection range,
`patrol`.  The previous behavior state is not consulted. -/
def determineState (enemyDef : EnemyDef) (attackState : AttackState)
    (distanceToPlayer : ℚ) : BehaviorState :=
  if distanceToPlayer < enemyDef.detectionRange then
    if distanceToPlayer < enemyDef.attackRange ∧ attackState = .idle then .engage
    else .chase
  else .patrol

/-- The speed value computed at the top of `handleMovement`:
`def.speed`, scaled by the power-up enemy-speed multiplier when the
effects object is present with a truthy multiplier. -/
def handleMovementSpeed (sys : EnemySystem) (u : EnemyUserData)
    (powerUpEffects : Option PowerUpSystem.Effects) : ℚ :=
  let speed := (sys.enemyTypes u.enemyType).speed
  match powerUpEffects with
  | none => speed
  | some eff =>
      if eff.enemySpeedMultiplier = 0 then speed
      else speed * eff.enemySpeedMultiplier

/-- `handleAttackState(enemy, player, now, delta)`: one step of the
attack sub-state machine, with `Math.random()` passed in as `roll` and
the player-enemy distance (recomputed in the source after movement)
passed in as `distanceToPlayer`.  The `registerThreat` emission on the
windup→attacking edge targets the `IntentTracker` and is modelled by
`IntentTracker.registerThreat`. -/
def handleAttackState (enemyDef : EnemyDef) (u : EnemyUserData)
    (distanceToPlayer now roll : ℚ) : EnemyUserData :=
  match u.attackState with
  | .idle =>
      if u.state = .engage ∧ distanceToPlayer < enemyDef.attackRange ∧
          now - u.lastAttackTime > u.attackCooldown then
        if roll < enemyDef.attackFrequency then
          { u with attackState := .windup, attackWindupStartTime := now }
        else u
      else u
  | .windup =>
      if (now - u.attackWindupStartTime) / enemyDef.attackWindup ≥ 1 then
        { u with attackState := .attacking, attackStartTime := now }
      else u
  | .attacking =>
      if (now - u.attackStartTime) / enemyDef.attackDuration < 1 then
        if distanceToPlayer < enemyDef.attackRange then
          { u with pendingPlayerDamage := some enemyDef.attackDamage }
        else u
      else
        { u with attackState := .cooldown, lastAttackTime := now }
  | .cooldown =>
      if now - u.lastAttackTime > 1/2 then { u with attackState := .idle }
      else u

/-- The argmax over the Intent Score Vector computed inside
`handlePunisherBehavior`: `Object.keys(intentScores).reduce((a, b) =>
intentScores[a] > intentScores[b] ? a : b)` with keys in insertion order
aggression, evasion, greed, panic, precision. -/
def dominantIntentOf (sc : Scores) : String :=
  let score : String → ℚ := fun k =>
    if k = "aggression" then sc.aggression
    else if k = "evasion" then sc.evasion
    else if k = "greed" then sc.greed
    else if k = "panic" then sc.panic
    else sc.precision
  ["evasion", "greed", "panic", "precision"].foldl
    (fun a b => if score a > score b then a else b) "aggression"

/-- The push-then-shift of the Punisher's observed-action memory: append
the new label, and drop the oldest when the length exceeds the
configured pattern memory (a missing `patternMemory` makes the JS
comparison false, so nothing is dropped). -/
def pushObservedAction (patternMemory : Option ℕ) (mem : List String)
    (label : String) : List String :=
  let m1 := mem ++ [label]
  match patternMemory with
  | some pm => if m1.length > pm then m1.tail else m1
  | none => m1

/-- `handlePunisherBehavior(enemy, player, now)`: every 0.5 s, sample
the dominant intent into the bounded memory; when the memory holds at
most 2 distinct labels with at least 4 samples, flag the pattern, set
the attack cooldown to 1 and write `baseSpeed * 1.3` into the shared
type definition's `speed`; otherwise clear the flag and restore
cooldown 2 and the base speed.  Returns the updated system table and
userData. -/
def handlePunisherBehavior (sys : EnemySystem) (u : EnemyUserData)
    (now : ℚ) (intentScores : Scores) : EnemySystem × EnemyUserData :=
  if now - u.lastObservationTime > 1/2 then
    let u1 := { u with lastObservationTime := now }
    let enemyDef := sys.enemyTypes u.enemyType
    let dominantIntent := dominantIntentOf intentScores
    let mem := pushObservedAction enemyDef.patternMemory u1.observedActions dominantIntent
    let u2 := { u1 with observedActions := mem }
    if mem.dedup.length ≤ 2 ∧ mem.length ≥ 4 then
      (⟨Function.update sys.enemyTypes u.enemyType
          { enemyDef with speed := u.baseSpeed * (13/10) }⟩,
       { u2 with patternDetected := true, attackCooldown := 1 })
    else
      (⟨Function.update sys.enemyTypes u.enemyType
          { enemyDef with speed := u.baseSpeed }⟩,
       { u2 with patternDetected := false, attackCooldown := 2 })
  else (sys, u)

/-! ## Judgment generator (`DeathScreen.generateJudgment`,
src/public/death-screen.js) -/

/-- The movement statistics record produced by `getMovementStats` and
consumed by the judgment rules. -/
structure MovementStats where
  movingTime : ℚ
  stationaryTime : ℚ
  movingRatio : ℚ
  pathRepetition : ℚ
deriving DecidableEq, Repr

/-- The `judgmentData` input of `generateJudgment`. -/
structure JudgmentData where
  intentScores : Scores
  dominantIntent : String
  movementStats : MovementStats
  averageReactionTime : ℚ
deriving Repr

/-- One `{condition, text}` rule. -/
structure JudgmentRule where
  condition : JudgmentData → Bool
  text : String

/-- `judgments.aggression`, in declaration order. -/
def aggressionJudgments : List JudgmentRule :=
  [⟨fun jd => decide (jd.intentScores.aggression > 8/10) &&
      decide (jd.averageReactionTime < 3/10),
    "You trusted speed. The world waited."⟩,
   ⟨fun jd => decide (jd.intentScores.aggression > 7/10) &&
      decide (jd.intentScores.precision < 4/10),
    "Reckless force. The world rewards patience."⟩,
   ⟨fun jd => decide (jd.intentScores.aggression > 6/10),
    "Aggression without wisdom. The world adapted."⟩]

/-- `judgments.evasion`. -/
def evasionJudgments : List JudgmentRule :=
  [⟨fun jd => decide (jd.intentScores.evasion > 8/10) &&
      decide (jd.movementStats.movingRatio > 8/10),
    "You never stopped running. The world closed in."⟩,
   ⟨fun jd => decide (jd.intentScores.evasion > 7/10) &&
      decide (jd.intentScores.panic > 6/10),
    "Fear guided you. The world sensed it."⟩,
   ⟨fun jd => decide (jd.intentScores.evasion > 6/10),
    "You hesitated. The world closed in."⟩]

/-- `judgments.greed`. -/
def greedJudgments : List JudgmentRule :=
  [⟨fun jd => decide (jd.intentScores.greed > 7/10),
    "You chased rewards. The world set traps."⟩,
   ⟨fun jd => decide (jd.intentScores.greed > 1/2) &&
      decide (jd.intentScores.precision < 4/10),
    "Desire made you predictable."⟩]

/-- `judgments.panic`. -/
def panicJudgments : List JudgmentRule :=
  [⟨fun jd => decide (jd.intentScores.panic > 7/10) &&
      decide (jd.averageReactionTime > 1/2),
    "Chaos was your strategy. The world found order."⟩,
   ⟨fun jd => decide (jd.intentScores.panic > 6/10),
    "You lost composure. The world remained calm."⟩]

/-- `judgments.precision`. -/
def precisionJudgments : List JudgmentRule :=
  [⟨fun jd => decide (jd.intentScores.precision > 8/10) &&
      decide (jd.movementStats.pathRepetition > 7/10),
    "Perfect patterns. Perfectly predictable."⟩,
   ⟨fun jd => decide (jd.intentScores.precision > 8/10) &&
      decide (jd.movementStats.pathRepetition > 7/10),
    "You repeated yourself."⟩,
   ⟨fun jd => decide (jd.intentScores.precision > 7/10),
    "Precision without adaptation. The world evolved."⟩]

/-- The `combinedJudgments` list, tried first. -/
def combinedJudgments : List JudgmentRule :=
  [⟨fun jd => decide (jd.movementStats.movingRatio < 2/10),
    "Standing still is still a choice. The world remembered."⟩,
   ⟨fun jd => decide (jd.averageReactionTime > 8/10),
    "The world moved faster than your thoughts."⟩,
   ⟨fun jd => decide (jd.movementStats.pathRepetition > 9/10),
    "The same path, the same end."⟩,
   ⟨fun jd => decide (jd.intentScores.aggression > 7/10) &&
      decide (jd.intentScores.panic > 7/10),
    "Desperate aggression. The world exploited both."⟩,
   ⟨fun jd => decide (jd.intentScores.evasion > 7/10) &&
      decide (jd.intentScores.greed > 6/10),
    "Caution and greed cannot coexist."⟩]

/-- `judgments[dominantIntent]`: the property lookup on the judgments
object. -/
def judgmentsFor (dominantIntent : String) : Option (List JudgmentRule) :=
  if dominantIntent = "aggression" then some aggressionJudgments
  else if dominantIntent = "evasion" then some evasionJudgments
  else if dominantIntent = "greed" then some greedJudgments
  else if dominantIntent = "panic" then some panicJudgments
  else if dominantIntent = "precision" then some precisionJudgments
  else none

/-- First rule of a list whose condition holds. -/
def firstMatch (jd : JudgmentData) (rules : List JudgmentRule) :
    Option String :=
  (rules.find? (fun r => r.condition jd)).map JudgmentRule.text

/-- The fixed fallback sentence. -/
def fallbackJudgment : String :=
  "The world observed. The world adapted. The world prevailed."

/-- `generateJudgment(judgmentData)`: combined rules first, then the
dominant-intent rules in order, else the fallback. -/
def generateJudgment (jd : JudgmentData) : String :=
  match firstMatch jd combinedJudgments with
  | some t => t
  | none =>
      match judgmentsFor jd.dominantIntent with
      | some rules =>
          match firstMatch jd rules with
          | some t => t
          | none => fallbackJudgment
      | none => fallbackJudgment

/-! ## Specification predicates -/

/-- Spec-side description of the effects record that should be visible
immediately after activating each power-up type: only its benefit
multiplier differs from neutral. -/
def benefitEffects : PowerUpType → PowerUpSystem.Effects
  | .TIME_SLOW => { PowerUpSystem.neutralEffects with enemySpeedMultiplier := 6/10 }
  | .DAMAGE_BOOST => { PowerUpSystem.neutralEffects with damageMultiplier := 15/10 }
  | .SPEED_SURGE => { PowerUpSystem.neutralEffects with speedMultiplier := 16/10 }

/-- Spec-side description of the effects record that should be visible
during each power-up type's cost window: only its psychological-cost
fields differ from neutral. -/
def costEffects : PowerUpType → PowerUpSystem.Effects
  | .TIME_SLOW =>
      { PowerUpSystem.neutralEffects with
        enemyPredictionBonus := 25/100
        reactionWindowReduction := 3/10 }
  | .DAMAGE_BOOST =>
      { PowerUpSystem.neutralEffects with enemyResistanceToPattern := 4/10 }
  | .SPEED_SURGE =>
      { PowerUpSystem.neutralEffects with
        worldAwarenessIncrease := 35/100
        hazardResponseSpeed := 15/10 }

/-- A threat that `registerReaction` at time `now` may match: still
unreacted and strictly younger than 2 seconds. -/
def Matchable (now : ℚ) (t : Threat) : Prop :=
  t.reacted = false ∧ now - t.timestamp < 2

/-- All five intent channels lie in the unit interval. -/
def ScoresInRange (sc : Scores) : Prop :=
  0 ≤ sc.aggression ∧ sc.aggression ≤ 1 ∧
  0 ≤ sc.evasion ∧ sc.evasion ≤ 1 ∧
  0 ≤ sc.greed ∧ sc.greed ≤ 1 ∧
  0 ≤ sc.panic ∧ sc.panic ≤ 1 ∧
  0 ≤ sc.precision ∧ sc.precision ≤ 1

/-! ## Theorems -/

namespace IntentTracker

theorem clamp01_nonneg (x : ℚ) : 0 ≤ clamp01 x := le_max_left 0 _

theorem clamp01_le_one (x : ℚ) : clamp01 x ≤ 1 :=
  max_le (by norm_num) (min_le_left 1 x)

theorem calculateAggression_range (s m : List Frame) :
    0 ≤ calculateAggression s m ∧ calculateAggression s m ≤ 1 := by
  unfold calculateAggression
  split
  · norm_num
  · exact ⟨clamp01_nonneg _, clamp01_le_one _⟩

theorem calculateEvasion_range (s m : List Frame) :
    0 ≤ calculateEvasion s m ∧ calculateEvasion s m ≤ 1 := by
  unfold calculateEvasion
  split
  · norm_num
  · exact ⟨clamp01_nonneg _, clamp01_le_one _⟩

theorem calculateGreed_range (m : List Frame) :
    0 ≤ calculateGreed m ∧ calculateGreed m ≤ 1 := by
  unfold calculateGreed
  split
  · norm_num
  · exact ⟨clamp01_nonneg _, clamp01_le_one _⟩

theorem calculatePanic_range (sq : ℚ → ℚ) (rt : List ℚ) (s : List Frame) :
    0 ≤ calculatePanic sq rt s ∧ calculatePanic sq rt s ≤ 1 := by
  unfold calculatePanic
  split
  · norm_num
  · exact ⟨clamp01_nonneg _, clamp01_le_one _⟩

theorem calculatePrecision_range (sq : ℚ → ℚ) (s : IntentTracker)
    (m : List Frame) :
    0 ≤ calculatePrecision sq s m ∧ calculatePrecision sq s m ≤ 1 := by
  unfold calculatePrecision
  split
  · norm_num
  · exact ⟨clamp01_nonneg _, clamp01_le_one _⟩

theorem updateIntentScores_range (sq : ℚ → ℚ) (s : IntentTracker)
    (h : ScoresInRange s.intentScores) :
    ScoresInRange (updateIntentScores sq s).intentScores := by
  simp only [updateIntentScores]
  split
  · exact h
  · exact ⟨(calculateAggression_range _ _).1, (calculateAggression_range _ _).2,
      (calculateEvasion_range _ _).1, (calculateEvasion_range _ _).2,
      (calculateGreed_range _).1, (calculateGreed_range _).2,
      (calculatePanic_range _ _ _).1, (calculatePanic_range _ _ _).2,
      (calculatePrecision_range _ _ _).1, (calculatePrecision_range _ _ _).2⟩

theorem recordFrameCore_intentScores (f : Frame) (now d : ℚ)
    (s : IntentTracker) :
    (recordFrameCore f now d s).intentScores = s.intentScores := by
  simp only [recordFrameCore]
  split <;> rfl

theorem recordFrameCore_frameData (f : Frame) (now d : ℚ)
    (s : IntentTracker) :
    (recordFrameCore f now d s).frameData =
      cleanOldFrameData now (s.frameData ++ [f]) := by
  simp only [recordFrameCore]
  split <;> rfl

theorem updateIntentScores_frameData (sq : ℚ → ℚ) (s : IntentTracker) :
    (updateIntentScores sq s).frameData = s.frameData := by
  simp only [updateIntentScores]
  split <;> rfl

theorem recordFrame_intentScores_eq (sq : ℚ → ℚ) (now : ℚ)
    (pd : PlayerData) (e : List Vec3) (d : ℚ) (s : IntentTracker) :
    (recordFrame sq now pd e d s).intentScores =
      (updateIntentScores sq
        (recordFrameCore (mkFrame sq now pd e d) now d s)).intentScores := rfl

theorem recordFrame_frameData (sq : ℚ → ℚ) (now : ℚ) (pd : PlayerData)
    (e : List Vec3) (d : ℚ) (s : IntentTracker) :
    (recordFrame sq now pd e d s).frameData =
      cleanOldFrameData now (s.frameData ++ [mkFrame sq now pd e d]) := by
  show (updateIntentScores sq
    (recordFrameCore (mkFrame sq now pd e d) now d s)).frameData = _
  rw [updateIntentScores_frameData, recordFrameCore_frameData]

theorem recordFrame_scores_range (sq : ℚ → ℚ) (now : ℚ) (pd : PlayerData)
    (e : List Vec3) (d : ℚ) (s : IntentTracker)
    (h : ScoresInRange s.intentScores) :
    ScoresInRange (recordFrame sq now pd e d s).intentScores := by
  rw [recordFrame_intentScores_eq]
  exact updateIntentScores_range _ _
    (by rw [recordFrameCore_intentScores]; exact h)

/-- C1: for every finite sequence of `recordFrame` calls with arbitrary
player kinematic data, enemy positions and deltas (and any square-root
function), each of the five intent score channels aggression, evasion,
greed, panic, precision lies in [0,1] after every call. -/
theorem recordFrame_intent_scores_in_unit_interval (sq : ℚ → ℚ)
    (inputs : List (ℚ × PlayerData × List Vec3 × ℚ)) :
    ScoresInRange (runRecordFrames sq inputs).intentScores := by
  have key : ∀ (l : List (ℚ × PlayerData × List Vec3 × ℚ)) (s : IntentTracker),
      ScoresInRange s.intentScores →
      ScoresInRange
        ((l.foldl (fun s i => recordFrame sq i.1 i.2.1 i.2.2.1 i.2.2.2 s) s)).intentScores := by
    intro l
    induction l with
    | nil => exact fun s h => h
    | cons a t ih =>
        exact fun s h => ih _ (recordFrame_scores_range _ _ _ _ _ _ h)
  exact key inputs init (by refine ⟨?_, ?_, ?_, ?_, ?_, ?_, ?_, ?_, ?_, ?_⟩ <;> norm_num [init])

/-- C2: whenever the retained 30-second sample history holds fewer than
10 samples after a `recordFrame` call, that call leaves all five intent
scores exactly at their prior values. -/
theorem recordFrame_scores_unchanged_below_ten_samples (sq : ℚ → ℚ)
    (now : ℚ) (pd : PlayerData) (e : List Vec3) (d : ℚ) (s : IntentTracker)
    (h : (recordFrame sq now pd e d s).frameData.length < 10) :
    (recordFrame sq now pd e d s).intentScores = s.intentScores := by
  rw [recordFrame_intentScores_eq]
  rw [recordFrame_frameData, ← recordFrameCore_frameData] at h
  set f := mkFrame sq now pd e d with hf
  set s3 := recordFrameCore f now d s with hs3
  have hts : f.timestamp = now := rfl
  have hfd3 : s3.frameData = cleanOldFrameData now (s.frameData ++ [f]) :=
    recordFrameCore_frameData _ _ _ _
  have hkeep : (decide (f.timestamp > now - windowLong)) = true := by
    rw [hts]
    simp only [decide_eq_true_eq, windowLong]
    linarith
  have hlast : s3.frameData.getLast? = some f := by
    rw [hfd3]
    unfold cleanOldFrameData
    rw [List.filter_append]
    have h1 : List.filter (fun fr => decide (fr.timestamp > now - windowLong)) [f] = [f] := by
      simp [hkeep]
    rw [h1, List.getLast?_concat]
  have hwin : getFramesInWindow s3 windowLong = s3.frameData := by
    unfold getFramesInWindow
    rw [hlast]
    show List.filter (fun fr => decide (fr.timestamp > f.timestamp - windowLong))
      s3.frameData = s3.frameData
    rw [hts]
    conv_lhs => rw [hfd3]
    unfold cleanOldFrameData
    rw [List.filter_filter]
    simp only [Bool.and_self]
    rw [hfd3]
    unfold cleanOldFrameData
    rfl
  simp only [updateIntentScores]
  rw [hwin, if_pos h]
  exact recordFrameCore_intentScores _ _ _ _

/-- Witness for C2: one `recordFrame` call on a fresh tracker retains a
single sample, so the scores stay at the initial 0.5 prior. -/
theorem recordFrame_scores_unchanged_below_ten_samples_witness :
    (recordFrame (fun _ => 0) 0 ⟨⟨0, 0, 0⟩, ⟨0, 0, 0⟩, none⟩ [] 1
      init).frameData.length < 10 ∧
    (recordFrame (fun _ => 0) 0 ⟨⟨0, 0, 0⟩, ⟨0, 0, 0⟩, none⟩ [] 1
      init).intentScores = init.intentScores := by
  have hlen : (recordFrame (fun _ => 0) 0 ⟨⟨0, 0, 0⟩, ⟨0, 0, 0⟩, none⟩ [] 1
      init).frameData.length < 10 := by
    rw [recordFrame_frameData]
    simp only [init, cleanOldFrameData, mkFrame, windowLong, List.nil_append]
    norm_num
  exact ⟨hlen,
    recordFrame_scores_unchanged_below_ten_samples _ _ _ _ _ _ hlen⟩

end IntentTracker

namespace IntentTracker

theorem markMostRecent_cons_some (now : ℚ) (rt : String) (t : Threat)
    (ts ts2 : List Threat) (r2 : ℚ)
    (hm : markMostRecent now rt ts = some (ts2, r2)) :
    markMostRecent now rt (t :: ts) = some (t :: ts2, r2) := by
  simp [markMostRecent, hm]

theorem markMostRecent_cons_match (now : ℚ) (rt : String) (t : Threat)
    (ts : List Threat) (hm : markMostRecent now rt ts = none)
    (hc : Matchable now t) :
    markMostRecent now rt (t :: ts) =
      some (markThreat now rt t :: ts, now - t.timestamp) := by
  simp [markMostRecent, hm, hc.1, hc.2]

theorem markMostRecent_cons_none (now : ℚ) (rt : String) (t : Threat)
    (ts : List Threat) (hm : markMostRecent now rt ts = none)
    (hc : ¬ Matchable now t) :
    markMostRecent now rt (t :: ts) = none := by
  simp only [markMostRecent, hm]
  rw [if_neg]
  exact fun hx => hc ⟨(Bool.not_eq_true' _).mp hx.1, hx.2⟩

theorem markMostRecent_none_iff (now : ℚ) (rt : String) (l : List Threat) :
    markMostRecent now rt l = none ↔ ∀ t ∈ l, ¬ Matchable now t := by
  induction l with
  | nil => simp [markMostRecent]
  | cons t ts ih =>
      cases hm : markMostRecent now rt ts with
      | some pr =>
          obtain ⟨ts2, r2⟩ := pr
          rw [markMostRecent_cons_some now rt t ts ts2 r2 hm]
          constructor
          · intro hc; cases hc
          · intro hall
            have hts : ∀ u ∈ ts, ¬ Matchable now u :=
              fun u hu => hall u (List.mem_cons_of_mem _ hu)
            rw [← ih, hm] at hts
            cases hts
      | none =>
          by_cases hc : Matchable now t
          · rw [markMostRecent_cons_match now rt t ts hm hc]
            constructor
            · intro hx; cases hx
            · intro hall; exact absurd hc (hall t (List.mem_cons_self ..))
          · rw [markMostRecent_cons_none now rt t ts hm hc]
            constructor
            · intro _ u hu hmm
              rcases List.mem_cons.mp hu with rfl | hu2
              · exact hc hmm
              · exact ih.mp hm u hu2 hmm
            · intro _; rfl

theorem markMostRecent_some (now : ℚ) (rt : String) (l l2 : List Threat)
    (r : ℚ) (h : markMostRecent now rt l = some (l2, r)) :
    ∃ l₁ t ls, l = l₁ ++ t :: ls ∧ Matchable now t ∧
      (∀ u ∈ ls, ¬ Matchable now u) ∧
      l2 = l₁ ++ markThreat now rt t :: ls ∧ r = now - t.timestamp := by
  induction l generalizing l2 r with
  | nil => simp [markMostRecent] at h
  | cons t ts ih =>
      cases hm : markMostRecent now rt ts with
      | some pr =>
          obtain ⟨ts2, r2⟩ := pr
          rw [markMostRecent_cons_some now rt t ts ts2 r2 hm] at h
          simp only [Option.some.injEq, Prod.mk.injEq] at h
          obtain ⟨hl2, hr⟩ := h
          obtain ⟨l₁, t0, ls, hsplit, hmatch, hnone, hts2, hr2⟩ := ih ts2 r2 hm
          refine ⟨t :: l₁, t0, ls, ?_, hmatch, hnone, ?_, ?_⟩
          · rw [hsplit]; rfl
          · rw [← hl2, hts2]; rfl
          · rw [← hr, hr2]
      | none =>
          by_cases hc : Matchable now t
          · rw [markMostRecent_cons_match now rt t ts hm hc] at h
            simp only [Option.some.injEq, Prod.mk.injEq] at h
            obtain ⟨hl2, hr⟩ := h
            exact ⟨[], t, ts, rfl, hc,
              (markMostRecent_none_iff now rt ts).mp hm, hl2.symm, hr.symm⟩
          · rw [markMostRecent_cons_none now rt t ts hm hc] at h
            cases h

/-- C3: a single `registerReaction` call marks at most one threat: when
some stored threat is unreacted and younger than 2 seconds, it marks
exactly the most recent such threat (recording the elapsed time and
appending exactly one sample to the 20-capped ring buffer); when every
unreacted threat is 2 seconds old or older, it marks nothing and appends
nothing.  In both cases threats 5 seconds old or older are purged. -/
theorem registerReaction_matches_at_most_one (now : ℚ) (rt : String)
    (s : IntentTracker) :
    ((∃ t ∈ s.threats, Matchable now t) →
      ∃ l₁ t ls, s.threats = l₁ ++ t :: ls ∧ Matchable now t ∧
        (∀ u ∈ ls, ¬ Matchable now u) ∧
        (registerReaction now rt s).threats =
          (l₁ ++ markThreat now rt t :: ls).filter
            (fun u => decide (now - u.timestamp < 5)) ∧
        (registerReaction now rt s).reactionTimes =
          pushReactionTime s.reactionTimes (now - t.timestamp)) ∧
    ((∀ t ∈ s.threats, ¬ Matchable now t) →
      (registerReaction now rt s).threats =
        s.threats.filter (fun u => decide (now - u.timestamp < 5)) ∧
      (registerReaction now rt s).reactionTimes = s.reactionTimes) := by
  constructor
  · intro hex
    cases hmark : markMostRecent now rt s.threats with
    | none =>
        exfalso
        rcases hex with ⟨t, ht, hm⟩
        exact (markMostRecent_none_iff now rt s.threats).mp hmark t ht hm
    | some pr =>
        obtain ⟨l2, r⟩ := pr
        obtain ⟨l₁, t, ls, hsplit, hmatch, hnone, hl2, hr⟩ :=
          markMostRecent_some now rt s.threats l2 r hmark
        refine ⟨l₁, t, ls, hsplit, hmatch, hnone, ?_, ?_⟩
        · simp only [registerReaction, hmark]
          rw [hl2]
        · simp only [registerReaction, hmark]
          rw [hr]
  · intro hall
    have hmark : markMostRecent now rt s.threats = none :=
      (markMostRecent_none_iff now rt s.threats).mpr hall
    constructor <;> simp only [registerReaction, hmark]

/-- Witness for C3: with one 1-second-old threat the reaction matches it
(first branch); with the same threat 10 seconds old nothing matches
(second branch). -/
theorem registerReaction_matches_at_most_one_witness :
    (∃ t ∈ ({ init with threats :=
        [⟨0, ⟨0, 0, 0⟩, "OBSERVER", false, none, none⟩] } :
          IntentTracker).threats, Matchable 1 t) ∧
    (∃ l₁ t ls, ({ init with threats :=
        [⟨0, ⟨0, 0, 0⟩, "OBSERVER", false, none, none⟩] } :
          IntentTracker).threats = l₁ ++ t :: ls ∧ Matchable 1 t ∧
      (∀ u ∈ ls, ¬ Matchable 1 u) ∧
      (registerReaction 1 "dash" ({ init with threats :=
        [⟨0, ⟨0, 0, 0⟩, "OBSERVER", false, none, none⟩] } :
          IntentTracker)).threats =
        (l₁ ++ markThreat 1 "dash" t :: ls).filter
          (fun u => decide ((1 : ℚ) - u.timestamp < 5)) ∧
      (registerReaction 1 "dash" ({ init with threats :=
        [⟨0, ⟨0, 0, 0⟩, "OBSERVER", false, none, none⟩] } :
          IntentTracker)).reactionTimes =
        pushReactionTime ({ init with threats :=
        [⟨0, ⟨0, 0, 0⟩, "OBSERVER", false, none, none⟩] } :
          IntentTracker).reactionTimes (1 - t.timestamp)) ∧
    (∀ t ∈ ({ init with threats :=
        [⟨0, ⟨0, 0, 0⟩, "OBSERVER", false, none, none⟩] } :
          IntentTracker).threats, ¬ Matchable 10 t) ∧
    ((registerReaction 10 "dash" ({ init with threats :=
        [⟨0, ⟨0, 0, 0⟩, "OBSERVER", false, none, none⟩] } :
          IntentTracker)).threats =
      ({ init with threats :=
        [⟨0, ⟨0, 0, 0⟩, "OBSERVER", false, none, none⟩] } :
          IntentTracker).threats.filter
        (fun u => decide ((10 : ℚ) - u.timestamp < 5)) ∧
     (registerReaction 10 "dash" ({ init with threats :=
        [⟨0, ⟨0, 0, 0⟩, "OBSERVER", false, none, none⟩] } :
          IntentTracker)).reactionTimes =
      ({ init with threats :=
        [⟨0, ⟨0, 0, 0⟩, "OBSERVER", false, none, none⟩] } :
          IntentTracker).reactionTimes) := by
  have hex : ∃ t ∈ ({ init with threats :=
      [⟨0, ⟨0, 0, 0⟩, "OBSERVER", false, none, none⟩] } :
        IntentTracker).threats, Matchable 1 t := by
    refine ⟨_, List.mem_singleton.mpr rfl, rfl, ?_⟩
    norm_num
  have hall : ∀ t ∈ ({ init with threats :=
      [⟨0, ⟨0, 0, 0⟩, "OBSERVER", false, none, none⟩] } :
        IntentTracker).threats, ¬ Matchable 10 t := by
    intro t ht hm
    rw [List.mem_singleton] at ht
    subst ht
    have := hm.2
    norm_num at this
  exact ⟨hex, (registerReaction_matches_at_most_one 1 "dash" _).1 hex,
    hall, (registerReaction_matches_at_most_one 10 "dash" _).2 hall⟩

end IntentTracker

/-- C4: one `handleAttackState` step changes the attack sub-state at
most once, and only ever to the next state of the cycle idle → windup →
attacking → cooldown → idle; hence a single successful attack roll
visits exactly those states in that order. -/
theorem handleAttackState_follows_cycle (enemyDef : EnemyDef)
    (u : EnemyUserData) (dist now roll : ℚ) :
    (handleAttackState enemyDef u dist now roll).attackState = u.attackState ∨
    (handleAttackState enemyDef u dist now roll).attackState =
      u.attackState.cycleNext := by
  cases hu : u.attackState <;>
    simp only [handleAttackState, hu] <;>
    (repeat' split) <;>
    simp [AttackState.cycleNext, hu]

/-- Counterexample to C7: a Punisher whose attack sub-state is `windup`
with the player at distance 1 (inside the attack range 3) is assigned
`chase`, not `engage` — within attack range does not imply `engage`. -/
theorem determineState_not_engage_during_windup :
    (1 : ℚ) < (enemyTypesInit .PUNISHER).attackRange ∧
    determineState (enemyTypesInit .PUNISHER) .windup 1 = .chase ∧
    determineState (enemyTypesInit .PUNISHER) .windup 1 ≠ .engage := by
  refine ⟨by norm_num [enemyTypesInit], ?_, ?_⟩ <;>
    · norm_num [determineState, enemyTypesInit]
      decide

/-- C7 (amended): per update, the behavior state becomes `engage` when
the player is within attack range and the attack sub-state is `idle`;
it becomes `chase` when the player is within detection range but not
(within attack range with an idle attack sub-state); and it becomes
`patrol` when the player is outside detection range. -/
theorem determineState_range_transitions (enemyDef : EnemyDef)
    (ast : AttackState) (dist : ℚ) :
    (dist < enemyDef.attackRange →
      enemyDef.attackRange ≤ enemyDef.detectionRange → ast = .idle →
      determineState enemyDef ast dist = .engage) ∧
    (dist < enemyDef.detectionRange →
      ¬(dist < enemyDef.attackRange ∧ ast = .idle) →
      determineState enemyDef ast dist = .chase) ∧
    (¬(dist < enemyDef.detectionRange) →
      determineState enemyDef ast dist = .patrol) := by
  refine ⟨fun h1 h2 h3 => ?_, fun h1 h2 => ?_, fun h1 => ?_⟩
  · unfold determineState
    rw [if_pos (lt_of_lt_of_le h1 h2), if_pos ⟨h1, h3⟩]
  · unfold determineState
    rw [if_pos h1, if_neg h2]
  · unfold determineState
    rw [if_neg h1]

/-- Witness for the amended C7: a Punisher at distance 1 engages when
idle, chases when winding up, and patrols at distance 100. -/
theorem determineState_range_transitions_witness :
    determineState (enemyTypesInit .PUNISHER) .idle 1 = .engage ∧
    determineState (enemyTypesInit .PUNISHER) .windup 1 = .chase ∧
    determineState (enemyTypesInit .PUNISHER) .idle 100 = .patrol :=
  ⟨(determineState_range_transitions _ _ _).1
      (by norm_num [enemyTypesInit]) (by norm_num [enemyTypesInit]) rfl,
   (determineState_range_transitions _ _ _).2.1
      (by norm_num [enemyTypesInit])
      (by rintro ⟨-, h⟩; exact absurd h (by decide)),
   (determineState_range_transitions _ _ _).2.2
      (by norm_num [enemyTypesInit])⟩

theorem handlePunisherBehavior_eq_pos (sys : EnemySystem)
    (u : EnemyUserData) (now : ℚ) (sc : Scores)
    (hdue : now - u.lastObservationTime > 1/2)
    (hcond : (pushObservedAction (sys.enemyTypes u.enemyType).patternMemory
        u.observedActions (dominantIntentOf sc)).dedup.length ≤ 2 ∧
      (pushObservedAction (sys.enemyTypes u.enemyType).patternMemory
        u.observedActions (dominantIntentOf sc)).length ≥ 4) :
    handlePunisherBehavior sys u now sc =
      (⟨Function.update sys.enemyTypes u.enemyType
          { sys.enemyTypes u.enemyType with speed := u.baseSpeed * (13/10) }⟩,
       { u with
         lastObservationTime := now
         observedActions := pushObservedAction
           (sys.enemyTypes u.enemyType).patternMemory
           u.observedActions (dominantIntentOf sc)
         patternDetected := true
         attackCooldown := 1 }) := by
  simp only [handlePunisherBehavior, if_pos hdue]
  rw [if_pos hcond]

theorem handlePunisherBehavior_eq_neg (sys : EnemySystem)
    (u : EnemyUserData) (now : ℚ) (sc : Scores)
    (hdue : now - u.lastObservationTime > 1/2)
    (hcond : ¬((pushObservedAction (sys.enemyTypes u.enemyType).patternMemory
        u.observedActions (dominantIntentOf sc)).dedup.length ≤ 2 ∧
      (pushObservedAction (sys.enemyTypes u.enemyType).patternMemory
        u.observedActions (dominantIntentOf sc)).length ≥ 4)) :
    handlePunisherBehavior sys u now sc =
      (⟨Function.update sys.enemyTypes u.enemyType
          { sys.enemyTypes u.enemyType with speed := u.baseSpeed }⟩,
       { u with
         lastObservationTime := now
         observedActions := pushObservedAction
           (sys.enemyTypes u.enemyType).patternMemory
           u.observedActions (dominantIntentOf sc)
         patternDetected := false
         attackCooldown := 2 }) := by
  simp only [handlePunisherBehavior, if_pos hdue]
  rw [if_neg hcond]

/-- C6: for a Punisher observation step (due every 0.5 s), the sampled
dominant intent enters the bounded memory; when the memory then has at
most 2 distinct labels with at least 4 samples, pattern-detected
becomes true, the attack cooldown is set to 1 (half the baseline 2) and
the shared definition speed is set to exactly baseSpeed × 1.3 (written
from the stored base speed, never compounding); otherwise
pattern-detected becomes false and cooldown 2 and the base speed are
restored — in particular for 5 pairwise-distinct labels. -/
theorem handlePunisherBehavior_pattern_detection (sys : EnemySystem)
    (u : EnemyUserData) (now : ℚ) (sc : Scores)
    (hdue : now - u.lastObservationTime > 1/2) :
    ((handlePunisherBehavior sys u now sc).2.observedActions =
      pushObservedAction (sys.enemyTypes u.enemyType).patternMemory
        u.observedActions (dominantIntentOf sc)) ∧
    ((pushObservedAction (sys.enemyTypes u.enemyType).patternMemory
        u.observedActions (dominantIntentOf sc)).dedup.length ≤ 2 ∧
      (pushObservedAction (sys.enemyTypes u.enemyType).patternMemory
        u.observedActions (dominantIntentOf sc)).length ≥ 4 →
      (handlePunisherBehavior sys u now sc).2.patternDetected = true ∧
      (handlePunisherBehavior sys u now sc).2.attackCooldown = 1 ∧
      ((handlePunisherBehavior sys u now sc).1.enemyTypes u.enemyType).speed =
        u.baseSpeed * (13/10)) ∧
    (¬((pushObservedAction (sys.enemyTypes u.enemyType).patternMemory
        u.observedActions (dominantIntentOf sc)).dedup.length ≤ 2 ∧
      (pushObservedAction (sys.enemyTypes u.enemyType).patternMemory
        u.observedActions (dominantIntentOf sc)).length ≥ 4) →
      (handlePunisherBehavior sys u now sc).2.patternDetected = false ∧
      (handlePunisherBehavior sys u now sc).2.attackCooldown = 2 ∧
      ((handlePunisherBehavior sys u now sc).1.enemyTypes u.enemyType).speed =
        u.baseSpeed) := by
  by_cases hcond : (pushObservedAction (sys.enemyTypes u.enemyType).patternMemory
      u.observedActions (dominantIntentOf sc)).dedup.length ≤ 2 ∧
    (pushObservedAction (sys.enemyTypes u.enemyType).patternMemory
      u.observedActions (dominantIntentOf sc)).length ≥ 4
  · rw [handlePunisherBehavior_eq_pos sys u now sc hdue hcond]
    exact ⟨rfl, fun _ => ⟨rfl, rfl, by simp [Function.update_same]⟩,
      fun hn => absurd hcond hn⟩
  · rw [handlePunisherBehavior_eq_neg sys u now sc hdue hcond]
    exact ⟨rfl, fun hp => absurd hp hcond,
      fun _ => ⟨rfl, rfl, by simp [Function.update_same]⟩⟩

/-- Witness for C6: a Punisher with three stored "aggression" samples
receives a fourth (one distinct label, four samples → pattern, cooldown
1, speed 3 × 1.3); one with four distinct stored labels receives a fifth
distinct label (five distinct labels → no pattern, cooldown 2, base
speed 3). -/
theorem handlePunisherBehavior_pattern_detection_witness :
    ((1 : ℚ) - (⟨.PUNISHER, 120, .patrol, .idle, 0, 0, 0, 2,
        ["aggression", "aggression", "aggression"], 0, 3, false, none⟩ :
        EnemyUserData).lastObservationTime > 1/2) ∧
    ((handlePunisherBehavior EnemySystem.init
        ⟨.PUNISHER, 120, .patrol, .idle, 0, 0, 0, 2,
          ["aggression", "aggression", "aggression"], 0, 3, false, none⟩
        1 ⟨1, 0, 0, 0, 0⟩).2.patternDetected = true ∧
      (handlePunisherBehavior EnemySystem.init
        ⟨.PUNISHER, 120, .patrol, .idle, 0, 0, 0, 2,
          ["aggression", "aggression", "aggression"], 0, 3, false, none⟩
        1 ⟨1, 0, 0, 0, 0⟩).2.attackCooldown = 1 ∧
      ((handlePunisherBehavior EnemySystem.init
        ⟨.PUNISHER, 120, .patrol, .idle, 0, 0, 0, 2,
          ["aggression", "aggression", "aggression"], 0, 3, false, none⟩
        1 ⟨1, 0, 0, 0, 0⟩).1.enemyTypes .PUNISHER).speed = 3 * (13/10)) ∧
    ((handlePunisherBehavior EnemySystem.init
        ⟨.PUNISHER, 120, .patrol, .idle, 0, 0, 0, 2,
          ["aggression", "evasion", "greed", "panic"], 0, 3, false, none⟩
        1 ⟨0, 0, 0, 0, 1⟩).2.patternDetected = false ∧
      (handlePunisherBehavior EnemySystem.init
        ⟨.PUNISHER, 120, .patrol, .idle, 0, 0, 0, 2,
          ["aggression", "evasion", "greed", "panic"], 0, 3, false, none⟩
        1 ⟨0, 0, 0, 0, 1⟩).2.attackCooldown = 2 ∧
      ((handlePunisherBehavior EnemySystem.init
        ⟨.PUNISHER, 120, .patrol, .idle, 0, 0, 0, 2,
          ["aggression", "evasion", "greed", "panic"], 0, 3, false, none⟩
        1 ⟨0, 0, 0, 0, 1⟩).1.enemyTypes .PUNISHER).speed = 3) := by
  have hdue1 : (1 : ℚ) - (⟨.PUNISHER, 120, .patrol, .idle, 0, 0, 0, 2,
      ["aggression", "aggression", "aggression"], 0, 3, false, none⟩ :
      EnemyUserData).lastObservationTime > 1/2 := by norm_num
  have hdue2 : (1 : ℚ) - (⟨.PUNISHER, 120, .patrol, .idle, 0, 0, 0, 2,
      ["aggression", "evasion", "greed", "panic"], 0, 3, false, none⟩ :
      EnemyUserData).lastObservationTime > 1/2 := by norm_num
  refine ⟨hdue1, ?_, ?_⟩
  · exact (handlePunisherBehavior_pattern_detection EnemySystem.init
      ⟨.PUNISHER, 120, .patrol, .idle, 0, 0, 0, 2,
        ["aggression", "aggression", "aggression"], 0, 3, false, none⟩
      1 ⟨1, 0, 0, 0, 0⟩ hdue1).2.1 (by decide)
  · exact (handlePunisherBehavior_pattern_detection EnemySystem.init
      ⟨.PUNISHER, 120, .patrol, .idle, 0, 0, 0, 2,
        ["aggression", "evasion", "greed", "panic"], 0, 3, false, none⟩
      1 ⟨0, 0, 0, 0, 1⟩ hdue2).2.2 (by decide)

/-- C10: enemies of one type created by one `EnemySystem` share its
mutable type-definition record, so when `handlePunisherBehavior` detects
(or clears) a pattern for one Punisher, the speed subsequently used by
`handleMovement` for EVERY enemy of that type in that system is the
evaluated enemy's baseSpeed × 1.3 (resp. its baseSpeed) — not only for
the enemy whose pattern was evaluated. -/
theorem punisher_pattern_write_is_shared (sys : EnemySystem)
    (u other : EnemyUserData) (now : ℚ) (sc : Scores)
    (hdue : now - u.lastObservationTime > 1/2)
    (hother : other.enemyType = u.enemyType) :
    ((pushObservedAction (sys.enemyTypes u.enemyType).patternMemory
        u.observedActions (dominantIntentOf sc)).dedup.length ≤ 2 ∧
      (pushObservedAction (sys.enemyTypes u.enemyType).patternMemory
        u.observedActions (dominantIntentOf sc)).length ≥ 4 →
      handleMovementSpeed (handlePunisherBehavior sys u now sc).1 other none =
        u.baseSpeed * (13/10)) ∧
    (¬((pushObservedAction (sys.enemyTypes u.enemyType).patternMemory
        u.observedActions (dominantIntentOf sc)).dedup.length ≤ 2 ∧
      (pushObservedAction (sys.enemyTypes u.enemyType).patternMemory
        u.observedActions (dominantIntentOf sc)).length ≥ 4) →
      handleMovementSpeed (handlePunisherBehavior sys u now sc).1 other none =
        u.baseSpeed) := by
  constructor
  · intro hcond
    rw [handlePunisherBehavior_eq_pos sys u now sc hdue hcond]
    simp only [handleMovementSpeed]
    rw [hother, Function.update_same]
  · intro hcond
    rw [handlePunisherBehavior_eq_neg sys u now sc hdue hcond]
    simp only [handleMovementSpeed]
    rw [hother, Function.update_same]

/-- Witness for C10: after the witness Punisher (baseSpeed 3) triggers
pattern detection, a second, distinct Punisher userData is moved at
speed 3 × 1.3 as well. -/
theorem punisher_pattern_write_is_shared_witness :
    ((1 : ℚ) - (⟨.PUNISHER, 120, .patrol, .idle, 0, 0, 0, 2,
        ["greed", "greed", "greed"], 0, 3, false, none⟩ :
        EnemyUserData).lastObservationTime > 1/2) ∧
    handleMovementSpeed
      (handlePunisherBehavior EnemySystem.init
        ⟨.PUNISHER, 120, .patrol, .idle, 0, 0, 0, 2,
          ["greed", "greed", "greed"], 0, 3, false, none⟩
        1 ⟨0, 0, 1, 0, 0⟩).1
      ⟨.PUNISHER, 120, .chase, .idle, 0, 0, 0, 2, [], 0, 3, false, none⟩
      none = 3 * (13/10) := by
  have hdue : (1 : ℚ) - (⟨.PUNISHER, 120, .patrol, .idle, 0, 0, 0, 2,
      ["greed", "greed", "greed"], 0, 3, false, none⟩ :
      EnemyUserData).lastObservationTime > 1/2 := by norm_num
  exact ⟨hdue,
    (punisher_pattern_write_is_shared EnemySystem.init
      ⟨.PUNISHER, 120, .patrol, .idle, 0, 0, 0, 2,
        ["greed", "greed", "greed"], 0, 3, false, none⟩
      ⟨.PUNISHER, 120, .chase, .idle, 0, 0, 0, 2, [], 0, 3, false, none⟩
      1 ⟨0, 0, 1, 0, 0⟩ hdue rfl).1 (by decide)⟩

/-- Counterexample to C8: with aggression 0.85, precision 0.3, average
reaction time 0.2, dominant intent aggression and no combined rule
matching, `generateJudgment` returns the sentence of the earlier
(aggression > 0.8 and reactionTime < 0.3) rule, not the "reckless
force" sentence of the (aggression > 0.7 and precision < 0.4) rule. -/
theorem generateJudgment_c8_input_gives_trusted_speed :
    generateJudgment ⟨⟨85/100, 1/2, 1/2, 1/2, 3/10⟩, "aggression",
        ⟨1, 1, 1/2, 1/2⟩, 2/10⟩ =
      "You trusted speed. The world waited." ∧
    generateJudgment ⟨⟨85/100, 1/2, 1/2, 1/2, 3/10⟩, "aggression",
        ⟨1, 1, 1/2, 1/2⟩, 2/10⟩ ≠
      "Reckless force. The world rewards patience." := by
  have h : generateJudgment ⟨⟨85/100, 1/2, 1/2, 1/2, 3/10⟩, "aggression",
      ⟨1, 1, 1/2, 1/2⟩, 2/10⟩ = "You trusted speed. The world waited." := by
    norm_num [generateJudgment, firstMatch, List.find?, combinedJudgments,
      judgmentsFor, aggressionJudgments]
  exact ⟨h, by rw [h]; decide⟩

/-- C8 (amended): for any judgment input with aggression 0.85, precision
0.3, average reaction time 0.2 and dominant intent aggression, with no
combined rule matching, `generateJudgment` returns the sentence of the
first aggression rule (aggression > 0.8 and reactionTime < 0.3), "You
trusted speed. The world waited." — still not the generic fallback. -/
theorem generateJudgment_c8_class (sc : Scores) (ms : MovementStats)
    (h1 : sc.aggression = 85/100) (h2 : sc.precision = 3/10)
    (h3 : (1 : ℚ)/5 ≤ ms.movingRatio) (h4 : ms.pathRepetition ≤ 9/10)
    (h5 : sc.panic ≤ 7/10) (h6 : ¬(sc.evasion > 7/10 ∧ sc.greed > 3/5)) :
    generateJudgment ⟨sc, "aggression", ms, 2/10⟩ =
      "You trusted speed. The world waited." ∧
    generateJudgment ⟨sc, "aggression", ms, 2/10⟩ ≠ fallbackJudgment := by
  have h3b : (decide (ms.movingRatio < (1 : ℚ)/5)) = false :=
    decide_eq_false (not_lt.mpr h3)
  have h4b : (decide ((9 : ℚ)/10 < ms.pathRepetition)) = false :=
    decide_eq_false (not_lt.mpr h4)
  have h5b : (decide ((7 : ℚ)/10 < sc.panic)) = false :=
    decide_eq_false (not_lt.mpr h5)
  have h6b : (decide ((7 : ℚ)/10 < sc.evasion) &&
      decide ((3 : ℚ)/5 < sc.greed)) = false := by
    by_contra hb
    rw [Bool.not_eq_false, Bool.and_eq_true, decide_eq_true_eq,
      decide_eq_true_eq] at hb
    exact h6 ⟨hb.1, hb.2⟩
  have h : generateJudgment ⟨sc, "aggression", ms, 2/10⟩ =
      "You trusted speed. The world waited." := by
    norm_num [generateJudgment, firstMatch, List.find?, combinedJudgments,
      judgmentsFor, aggressionJudgments, h1, h2, h3b, h4b, h5b, h6b]
  exact ⟨h, by rw [h]; decide⟩

/-- Witness for the amended C8 at a fully concrete input. -/
theorem generateJudgment_c8_class_witness :
    generateJudgment ⟨⟨85/100, 6/10, 1/2, 1/2, 3/10⟩, "aggression",
        ⟨10, 10, 1/2, 1/2⟩, 2/10⟩ =
      "You trusted speed. The world waited." ∧
    generateJudgment ⟨⟨85/100, 6/10, 1/2, 1/2, 3/10⟩, "aggression",
        ⟨10, 10, 1/2, 1/2⟩, 2/10⟩ ≠ fallbackJudgment :=
  generateJudgment_c8_class ⟨85/100, 6/10, 1/2, 1/2, 3/10⟩ ⟨10, 10, 1/2, 1/2⟩
    rfl rfl (by norm_num) (by norm_num) (by norm_num) (by norm_num)

namespace IntentTracker

theorem lookup_some_mem {hm : List ((Int × Int) × ℕ)} {k : Int × Int}
    {c : ℕ} (h : hm.lookup k = some c) : (k, c) ∈ hm := by
  induction hm with
  | nil => cases h
  | cons e t ih =>
      obtain ⟨k0, v0⟩ := e
      rw [List.lookup] at h
      cases hbeq : k == k0 with
      | true =>
          rw [hbeq] at h
          simp only [Option.some.injEq] at h
          subst h
          exact List.mem_cons.mpr (Or.inl (by rw [(beq_iff_eq ..).mp hbeq]))
      | false =>
          rw [hbeq] at h
          exact List.mem_cons_of_mem _ (ih h)

theorem lookup_of_mem_keys {hm : List ((Int × Int) × ℕ)} {k : Int × Int}
    (h : k ∈ hm.map Prod.fst) : ∃ c, hm.lookup k = some c := by
  induction hm with
  | nil => cases h
  | cons e t ih =>
      obtain ⟨k0, v0⟩ := e
      rw [List.lookup]
      cases hbeq : k == k0 with
      | true => exact ⟨v0, rfl⟩
      | false =>
          rw [List.map_cons] at h
          rcases List.mem_cons.mp h with h0 | h1
          · rw [show (k0, v0).1 = k0 from rfl] at h0
            rw [h0, beq_self_eq_true] at hbeq
            cases hbeq
          · exact ih h1

theorem lookup_of_not_mem_keys {hm : List ((Int × Int) × ℕ)}
    {k : Int × Int} (h : k ∉ hm.map Prod.fst) : hm.lookup k = none := by
  induction hm with
  | nil => rfl
  | cons e t ih =>
      obtain ⟨k0, v0⟩ := e
      rw [List.lookup]
      cases hbeq : k == k0 with
      | true =>
          exact absurd (by
            rw [List.map_cons, show (k0, v0).1 = k0 from rfl,
              (beq_iff_eq ..).mp hbeq]
            exact List.mem_cons_self _ _) h
      | false =>
          exact ih (fun hk => h (by
            rw [List.map_cons]
            exact List.mem_cons_of_mem _ hk))

theorem one_le_heatMaxCount (hm : List ((Int × Int) × ℕ)) :
    1 ≤ heatMaxCount hm := by
  induction hm with
  | nil => exact le_refl 1
  | cons e t ih => exact le_trans ih (le_max_right _ _)

theorem le_heatMaxCount {hm : List ((Int × Int) × ℕ)}
    {e : (Int × Int) × ℕ} (h : e ∈ hm) : e.2 ≤ heatMaxCount hm := by
  induction hm with
  | nil => cases h
  | cons e0 t ih =>
      rcases List.mem_cons.mp h with rfl | h1
      · exact le_max_left _ _
      · exact le_trans (ih h1) (le_max_right _ _)

theorem heatMaxCount_le {hm : List ((Int × Int) × ℕ)} {M : ℕ}
    (hM : 1 ≤ M) (h : ∀ e ∈ hm, e.2 ≤ M) : heatMaxCount hm ≤ M := by
  induction hm with
  | nil => exact hM
  | cons e0 t ih =>
      exact max_le (h e0 (List.mem_cons_self ..))
        (ih fun e he => h e (List.mem_cons_of_mem _ he))

theorem mem_heatSet {hm : List ((Int × Int) × ℕ)} {k : Int × Int} {v : ℕ}
    {e : (Int × Int) × ℕ} (h : e ∈ heatSet hm k v) :
    e = (k, v) ∨ e ∈ hm := by
  induction hm with
  | nil => exact Or.inl (by simpa [heatSet] using h)
  | cons e0 t ih =>
      obtain ⟨k0, v0⟩ := e0
      rw [heatSet] at h
      split at h
      · rcases List.mem_cons.mp h with rfl | h1
        · next hk => exact Or.inl (by rw [hk])
        · exact Or.inr (List.mem_cons_of_mem _ h1)
      · rcases List.mem_cons.mp h with rfl | h1
        · exact Or.inr (List.mem_cons_self ..)
        · rcases ih h1 with h2 | h2
          · exact Or.inl h2
          · exact Or.inr (List.mem_cons_of_mem _ h2)

theorem foldHeatmap_counts_pos (ps : List Vec3) :
    ∀ e ∈ foldHeatmap ps, 1 ≤ e.2 := by
  have key : ∀ (l : List Vec3) (hm : List ((Int × Int) × ℕ)),
      (∀ e ∈ hm, 1 ≤ e.2) →
      ∀ e ∈ l.foldl (fun hm p => updatePathHeatmap p hm) hm, 1 ≤ e.2 := by
    intro l
    induction l with
    | nil => exact fun hm h => h
    | cons p t ih =>
        intro hm h
        refine ih _ ?_
        intro e he
        rcases mem_heatSet he with rfl | h2
        · exact Nat.le_add_left 1 _
        · exact h e h2
  exact key ps [] (by intro e he; cases he)

/-- C9: on any reachable Path Heatmap state, `getPathRepetition` (cell
count divided by the maximum count over all cells) returns exactly 1 for
a position whose cell is visited and carries the maximum count (the
most-visited cell), and exactly 0 for a position in a never-visited
cell; the second branch has no presence hypothesis, so it covers the
empty heatmap (`ps = []`) as well. -/
theorem getPathRepetition_extremes (ps : List Vec3) (p q : Vec3) :
    ((gridKey p ∈ (foldHeatmap ps).map Prod.fst) →
      (∀ e ∈ foldHeatmap ps,
        e.2 ≤ heatGet (foldHeatmap ps) (gridKey p)) →
      getPathRepetition { init with pathHeatmap := foldHeatmap ps } p = 1) ∧
    ((gridKey q ∉ (foldHeatmap ps).map Prod.fst) →
      getPathRepetition { init with pathHeatmap := foldHeatmap ps } q = 0) := by
  constructor
  · intro hmem hmax
    obtain ⟨c, hc⟩ := lookup_of_mem_keys hmem
    have hcget : heatGet (foldHeatmap ps) (gridKey p) = c := by
      simp [heatGet, hc]
    have hmemc : (gridKey p, c) ∈ foldHeatmap ps := lookup_some_mem hc
    have hpos : 1 ≤ c := foldHeatmap_counts_pos ps _ hmemc
    have hub : heatMaxCount (foldHeatmap ps) ≤ c :=
      heatMaxCount_le hpos (fun e he => hcget ▸ hmax e he)
    have hlb : c ≤ heatMaxCount (foldHeatmap ps) := le_heatMaxCount hmemc
    have hmaxeq : heatMaxCount (foldHeatmap ps) = c := le_antisymm hub hlb
    show (heatGet (foldHeatmap ps) (gridKey p) : ℚ) /
      (heatMaxCount (foldHeatmap ps) : ℚ) = 1
    rw [hcget, hmaxeq, div_self]
    exact Nat.cast_ne_zero.mpr (by omega)
  · intro hq
    have h0 : heatGet (foldHeatmap ps) (gridKey q) = 0 := by
      simp [heatGet, lookup_of_not_mem_keys hq]
    show (heatGet (foldHeatmap ps) (gridKey q) : ℚ) /
      (heatMaxCount (foldHeatmap ps) : ℚ) = 0
    rw [h0]
    simp

end IntentTracker

namespace IntentTracker

/-- Witness for C9: after visits at the origin (twice) and one other
cell, the origin cell (count 2, the maximum) scores 1 and an unvisited
cell scores 0; on the empty heatmap (no visits) the same unvisited cell
also scores 0. -/
theorem getPathRepetition_extremes_witness :
    (gridKey ⟨0, 0, 0⟩ ∈
      (foldHeatmap [⟨0, 0, 0⟩, ⟨0, 0, 0⟩, ⟨7, 0, 7⟩]).map Prod.fst) ∧
    (∀ e ∈ foldHeatmap [⟨0, 0, 0⟩, ⟨0, 0, 0⟩, ⟨7, 0, 7⟩],
      e.2 ≤ heatGet (foldHeatmap [⟨0, 0, 0⟩, ⟨0, 0, 0⟩, ⟨7, 0, 7⟩])
        (gridKey ⟨0, 0, 0⟩)) ∧
    (gridKey ⟨40, 0, 40⟩ ∉
      (foldHeatmap [⟨0, 0, 0⟩, ⟨0, 0, 0⟩, ⟨7, 0, 7⟩]).map Prod.fst) ∧
    getPathRepetition
      { init with pathHeatmap := foldHeatmap [⟨0, 0, 0⟩, ⟨0, 0, 0⟩, ⟨7, 0, 7⟩] }
      ⟨0, 0, 0⟩ = 1 ∧
    getPathRepetition
      { init with pathHeatmap := foldHeatmap [⟨0, 0, 0⟩, ⟨0, 0, 0⟩, ⟨7, 0, 7⟩] }
      ⟨40, 0, 40⟩ = 0 ∧
    (gridKey ⟨40, 0, 40⟩ ∉
      (foldHeatmap ([] : List Vec3)).map Prod.fst) ∧
    getPathRepetition
      { init with pathHeatmap := foldHeatmap ([] : List Vec3) }
      ⟨40, 0, 40⟩ = 0 := by
  have hk0 : gridKey ⟨0, 0, 0⟩ = (0, 0) := by norm_num [gridKey]
  have hk7 : gridKey ⟨7, 0, 7⟩ = (1, 1) := by norm_num [gridKey]
  have hk40 : gridKey ⟨40, 0, 40⟩ = (8, 8) := by norm_num [gridKey]
  have hfold : foldHeatmap [⟨0, 0, 0⟩, ⟨0, 0, 0⟩, ⟨7, 0, 7⟩] =
      [((0, 0), 2), ((1, 1), 1)] := by
    simp [foldHeatmap, updatePathHeatmap, heatSet, heatGet, hk0, hk7,
      List.lookup]
    decide
  have hmem : gridKey ⟨0, 0, 0⟩ ∈
      (foldHeatmap [⟨0, 0, 0⟩, ⟨0, 0, 0⟩, ⟨7, 0, 7⟩]).map Prod.fst := by
    rw [hfold, hk0]; decide
  have hmax : ∀ e ∈ foldHeatmap [⟨0, 0, 0⟩, ⟨0, 0, 0⟩, ⟨7, 0, 7⟩],
      e.2 ≤ heatGet (foldHeatmap [⟨0, 0, 0⟩, ⟨0, 0, 0⟩, ⟨7, 0, 7⟩])
        (gridKey ⟨0, 0, 0⟩) := by
    rw [hfold, hk0]; decide
  have hq : gridKey ⟨40, 0, 40⟩ ∉
      (foldHeatmap [⟨0, 0, 0⟩, ⟨0, 0, 0⟩, ⟨7, 0, 7⟩]).map Prod.fst := by
    rw [hfold, hk40]; decide
  have hqe : gridKey ⟨40, 0, 40⟩ ∉
      (foldHeatmap ([] : List Vec3)).map Prod.fst := by
    simp [foldHeatmap]
  exact ⟨hmem, hmax, hq,
    (getPathRepetition_extremes [⟨0, 0, 0⟩, ⟨0, 0, 0⟩, ⟨7, 0, 7⟩]
      ⟨0, 0, 0⟩ ⟨40, 0, 40⟩).1 hmem hmax,
    (getPathRepetition_extremes [⟨0, 0, 0⟩, ⟨0, 0, 0⟩, ⟨7, 0, 7⟩]
      ⟨0, 0, 0⟩ ⟨40, 0, 40⟩).2 hq,
    hqe,
    (getPathRepetition_extremes ([] : List Vec3)
      ⟨0, 0, 0⟩ ⟨40, 0, 40⟩).2 hqe⟩

end IntentTracker

namespace PowerUpSystem

theorem getActiveEffects_after_activation (t : PowerUpType) (a n : ℚ) :
    getActiveEffects n (activatePowerUp a t init) = benefitEffects t := by
  cases t <;>
    norm_num [getActiveEffects, activatePowerUp, init, applyActivation,
      powerUpTypes, truthy, benefitEffects, neutralEffects]

theorem update_at_expiry_state (t : PowerUpType) (a : ℚ) (ha : 0 < a) :
    (update (a + (powerUpTypes t).duration)
        (activatePowerUp a t init)).activePowerUps =
      [{ powerUpType := t
         activationTime := a
         expiryTime := a + (powerUpTypes t).duration
         costStartTime := some (a + (powerUpTypes t).duration)
         costEndTime := some (a + (powerUpTypes t).duration +
           (powerUpTypes t).psychologicalCost.durationAfterExpiry)
         active := false }] := by
  have hdur : 0 < (powerUpTypes t).duration := by
    cases t <;> norm_num [powerUpTypes]
  have hcd : 0 < (powerUpTypes t).psychologicalCost.durationAfterExpiry := by
    cases t <;> norm_num [powerUpTypes]
  have he : a + (powerUpTypes t).duration ≠ 0 :=
    ne_of_gt (by linarith)
  have hno : ¬(a + (powerUpTypes t).duration ≥ a + (powerUpTypes t).duration +
      (powerUpTypes t).psychologicalCost.durationAfterExpiry) := by linarith
  simp [update, updateActivation, costElapsed, activatePowerUp, init, he,
    hno, le_refl]

theorem getActiveEffects_cost_window (t : PowerUpType) (s : PowerUpSystem)
    (x y cs ce n : ℚ)
    (hs : s.activePowerUps = [⟨t, x, y, some cs, some ce, false⟩])
    (hcs : cs ≠ 0) (hce : ce ≠ 0) (hn : n < ce) :
    getActiveEffects n s = costEffects t := by
  cases t <;>
    norm_num [getActiveEffects, hs, applyActivation, powerUpTypes, truthy,
      costEffects, neutralEffects, hcs, hce, hn]

theorem update_removes_finished_cost (t : PowerUpType) (s : PowerUpSystem)
    (x y cs ce now : ℚ)
    (hs : s.activePowerUps = [⟨t, x, y, some cs, some ce, false⟩])
    (hcs : cs ≠ 0) (hnow : ce ≤ now) :
    (update now s).activePowerUps = [] := by
  simp [update, hs, updateActivation, costElapsed, hcs, ge_iff_le, hnow]

/-- C5: for every power-up activation (at any positive time), the
benefit multiplier is visible in `getActiveEffects` immediately after
activation; running `update` when simulated time reaches the expiry
flips the activation into its cost window with start/end set at the
expiry, after which only the psychological-cost effect is visible; and
once the cost window elapses the next `update` removes the activation,
leaving neither benefit nor cost in `getActiveEffects`. -/
theorem powerUp_two_phase_lifecycle (t : PowerUpType) (a : ℚ)
    (ha : 0 < a) :
    getActiveEffects a (activatePowerUp a t init) = benefitEffects t ∧
    (update (a + (powerUpTypes t).duration)
        (activatePowerUp a t init)).activePowerUps =
      [{ powerUpType := t
         activationTime := a
         expiryTime := a + (powerUpTypes t).duration
         costStartTime := some (a + (powerUpTypes t).duration)
         costEndTime := some (a + (powerUpTypes t).duration +
           (powerUpTypes t).psychologicalCost.durationAfterExpiry)
         active := false }] ∧
    (∀ n : ℚ, n < a + (powerUpTypes t).duration +
        (powerUpTypes t).psychologicalCost.durationAfterExpiry →
      getActiveEffects n (update (a + (powerUpTypes t).duration)
        (activatePowerUp a t init)) = costEffects t) ∧
    (update (a + (powerUpTypes t).duration +
        (powerUpTypes t).psychologicalCost.durationAfterExpiry)
      (update (a + (powerUpTypes t).duration)
        (activatePowerUp a t init))).activePowerUps = [] ∧
    (∀ n : ℚ, getActiveEffects n
      (update (a + (powerUpTypes t).duration +
          (powerUpTypes t).psychologicalCost.durationAfterExpiry)
        (update (a + (powerUpTypes t).duration)
          (activatePowerUp a t init))) = neutralEffects) := by
  have hdur : 0 < (powerUpTypes t).duration := by
    cases t <;> norm_num [powerUpTypes]
  have hcd : 0 < (powerUpTypes t).psychologicalCost.durationAfterExpiry := by
    cases t <;> norm_num [powerUpTypes]
  have he : a + (powerUpTypes t).duration ≠ 0 :=
    ne_of_gt (by linarith)
  have hce : a + (powerUpTypes t).duration +
      (powerUpTypes t).psychologicalCost.durationAfterExpiry ≠ 0 :=
    ne_of_gt (by linarith)
  have hstate := update_at_expiry_state t a ha
  have hprune := update_removes_finished_cost t _ a
    (a + (powerUpTypes t).duration)
    (a + (powerUpTypes t).duration)
    (a + (powerUpTypes t).duration +
      (powerUpTypes t).psychologicalCost.durationAfterExpiry)
    (a + (powerUpTypes t).duration +
      (powerUpTypes t).psychologicalCost.durationAfterExpiry)
    hstate he (le_refl _)
  refine ⟨getActiveEffects_after_activation t a a, hstate, ?_, hprune, ?_⟩
  · intro n hn
    exact getActiveEffects_cost_window t _ a
      (a + (powerUpTypes t).duration)
      (a + (powerUpTypes t).duration)
      (a + (powerUpTypes t).duration +
        (powerUpTypes t).psychologicalCost.durationAfterExpiry)
      n hstate he hce hn
  · intro n
    show (update _ (update _ (activatePowerUp a t init))).activePowerUps.foldl
      (applyActivation n) neutralEffects = neutralEffects
    rw [hprune]
    rfl

end PowerUpSystem

namespace PowerUpSystem

/-- Witness for C5: a TIME SLOW activation at t=100 shows its benefit at
activation, shows only its cost right after the expiry update at t=108,
and is gone after the update at t=123. -/
theorem powerUp_two_phase_lifecycle_witness :
    (0 : ℚ) < 100 ∧
    getActiveEffects 100 (activatePowerUp 100 PowerUpType.TIME_SLOW init) =
      benefitEffects PowerUpType.TIME_SLOW ∧
    (100 + (powerUpTypes PowerUpType.TIME_SLOW).duration <
      100 + (powerUpTypes PowerUpType.TIME_SLOW).duration +
      (powerUpTypes PowerUpType.TIME_SLOW).psychologicalCost.durationAfterExpiry) ∧
    getActiveEffects (100 + (powerUpTypes PowerUpType.TIME_SLOW).duration)
      (update (100 + (powerUpTypes PowerUpType.TIME_SLOW).duration)
        (activatePowerUp 100 PowerUpType.TIME_SLOW init)) =
      costEffects PowerUpType.TIME_SLOW ∧
    (update (100 + (powerUpTypes PowerUpType.TIME_SLOW).duration +
        (powerUpTypes PowerUpType.TIME_SLOW).psychologicalCost.durationAfterExpiry)
      (update (100 + (powerUpTypes PowerUpType.TIME_SLOW).duration)
        (activatePowerUp 100 PowerUpType.TIME_SLOW init))).activePowerUps =
      [] := by
  have h := powerUp_two_phase_lifecycle PowerUpType.TIME_SLOW 100 (by norm_num)
  have hn : 100 + (powerUpTypes PowerUpType.TIME_SLOW).duration <
      100 + (powerUpTypes PowerUpType.TIME_SLOW).duration +
      (powerUpTypes PowerUpType.TIME_SLOW).psychologicalCost.durationAfterExpiry := by
    norm_num [powerUpTypes]
  exact ⟨by norm_num, h.1, hn, h.2.2.1 _ hn, h.2.2.2.1⟩

end PowerUpSystem
